import Mathlib

/-!
# Verification of the Genesys bot-connector worker

A shallow embedding of the conversation-continuity / fallback-escalation
logic and the token-minting payload of the Cloudflare worker in
`src/personal_genchatbotconnector/src/index.js`, together with theorems
settling the specification's claims about it.

JavaScript dynamic values entering the fallback counter are modelled by
`JVal` (a number, possibly NaN, or a string); the worker's post-processing
block (lines 142-258 of `index.js`) is `processTurn`, the request
validation and dispatch (lines 93-268) is `turn`, and the JWT claims set
(lines 130-136) is `buildJwtPayload`.
-/

namespace GenConnector

/-- A JavaScript scalar value as it occurs in context parameters: a number
(`num none` models NaN) or a string. -/
inductive JVal where
  | num (v : Option Int)
  | str (s : String)
deriving DecidableEq

/-- Fold a digit list into a natural number; `none` when a non-digit occurs
or the list is empty. -/
def digitsToNat (cs : List Char) : Option Nat :=
  if cs.isEmpty then none
  else
    cs.foldl
      (fun acc c =>
        match acc with
        | none => none
        | some n => if c.isDigit then some (n * 10 + (c.toNat - 48)) else none)
      (some 0)

/-- JavaScript `Number(s)` on a string, restricted to optional-sign decimal
integer strings — the only numeric shape counter values take in this worker.
Leading and trailing whitespace is stripped; the empty or all-whitespace
string converts to 0, as in JS; any other string that is not an
optional-sign digit string converts to NaN (`none`), as JS does for
non-numeric strings. -/
def strToNum (s : String) : Option Int :=
  let t := ((s.data.dropWhile Char.isWhitespace).reverse.dropWhile
    Char.isWhitespace).reverse
  if t.isEmpty then some 0
  else
    match t with
    | '-' :: rest => (digitsToNat rest).map (fun n => -(n : Int))
    | '+' :: rest => (digitsToNat rest).map (fun n => (n : Int))
    | cs => (digitsToNat cs).map (fun n => (n : Int))

/-- JavaScript `ToNumber` on a `JVal` (`none` = NaN). -/
def toNumber : JVal → Option Int
  | .num v => v
  | .str s => strToNum s

/-- JavaScript truthiness of a `JVal`: 0, NaN and the empty string are falsy. -/
def truthy : JVal → Bool
  | .num none => false
  | .num (some n) => n != 0
  | .str s => s != ""

/-- JavaScript `v >= 2` (line 214): a string operand is converted with
`ToNumber`; a NaN comparison is false. -/
def jge2 (v : JVal) : Bool :=
  match toNumber v with
  | some n => decide (2 ≤ n)
  | none => false

/-- The value held by `fallbackCount` after JavaScript `fallbackCount++`
(line 218): `ToNumber` of the old value plus one; NaN propagates. -/
def jsIncr (v : JVal) : JVal :=
  .num ((toNumber v).map (· + 1))

/-- JavaScript `a || b` where `a` is a possibly-absent string: `undefined`
and the empty string are falsy and select `b`. -/
def jsOrStr (a : Option String) (b : String) : String :=
  match a with
  | some s => if s = "" then b else s
  | none => b

/-- A conversational context as exchanged with the front end and the backend
(§6): a hierarchical name, a lifespan, and a string-keyed parameters object
modelled as an association list of `JVal`s. -/
structure Context where
  name : String
  lifespanCount : Int
  parameters : List (String × JVal)
deriving DecidableEq

/-- Dynamic property read `parameters.k`: the first binding of `k`, if any. -/
def getParam (ps : List (String × JVal)) (k : String) : Option JVal :=
  (ps.find? (fun p => p.1 == k)).map (fun p => p.2)

/-- The backend's `queryResult` as consumed by lines 200-203: each field may
be absent. `intent` holds the matched intent's `displayName` when
`result.intent` is present. -/
structure QueryResult where
  fulfillmentText : Option String
  intent : Option String
  intentDetectionConfidence : Option Rat
  outputContexts : Option (List Context)
deriving DecidableEq

/-- Line 144: the full hierarchical name of the fallback-counter context,
embedding project and session. -/
def fallbackContextName (projectId sessionId : String) : String :=
  "projects/" ++ projectId ++ "/agent/sessions/" ++ sessionId ++
    "/contexts/fallback_counter"

/-- Lines 143-149: the inbound fallback count. The existing counter context
is looked up by exact equality of the full name; when it exists and its
`fallback_count` parameter is truthy, that value (number or string) is the
count, otherwise the count stays 0. -/
def readFallbackCount (projectId sessionId : String)
    (botContexts : List Context) : JVal :=
  match botContexts.find? (fun c => c.name == fallbackContextName projectId sessionId) with
  | some c =>
    match getParam c.parameters "fallback_count" with
    | some v => if truthy v then v else .num (some 0)
    | none => .num (some 0)
  | none => .num (some 0)

/-- Line 200's default reply text. -/
def noResponseReply : String := "No response from Dialogflow."

/-- Line 210's fallback-intent display name. -/
def fallbackIntentLabel : String := "Default Fallback Intent"

/-- Line 216's terminal escalation reply. -/
def terminalReply : String :=
  "I'm sorry, I am unable to help with that. Please contact a human agent for assistance. Goodbye!"

/-- Line 219's generic rephrase reply. -/
def rephraseReply : String :=
  "I'm sorry, I'm having trouble understanding. Could you please try rephrasing?"

/-- Line 200: `result.fulfillmentText || 'No response from Dialogflow.'`. -/
def dialogflowReply (r : QueryResult) : String :=
  jsOrStr r.fulfillmentText noResponseReply

/-- Line 201: `result.intent ? result.intent.displayName : 'UNKNOWN'`. -/
def dialogflowIntent (r : QueryResult) : String :=
  r.intent.getD "UNKNOWN"

/-- Line 202: `result.intentDetectionConfidence || 0`. -/
def dialogflowConfidence (r : QueryResult) : Rat :=
  r.intentDetectionConfidence.getD 0

/-- Line 203: `result.outputContexts || []`. -/
def backendOutputContexts (r : QueryResult) : List Context :=
  r.outputContexts.getD []

/-- The worker's answer to the front end (lines 247-258): reply text, echoed
intent and confidence, outbound context list, and the two-valued bot state. -/
structure FinalResponse where
  replyText : String
  intent : String
  confidence : Rat
  botContexts : List Context
  botState : String
deriving DecidableEq

/-- Lines 142-258: the fallback-counter post-processing applied to the
backend result, and the assembly of the final response.

* matched intent = fallback and count ≥ 2: terminal reply, `COMPLETE`, the
  backend's outbound contexts passed through unchanged (lines 214-216);
* matched intent = fallback and count < 2: rephrase reply, `MOREDATA`; the
  first inbound context with positive lifespan, if any, is re-applied with
  lifespan 1 (lines 222-228), then the incremented counter context is
  appended (lines 231-237);
* otherwise: the backend's reply and contexts pass through, `MOREDATA`
  (lines 239-242 only reset the local counter variable). -/
def processTurn (projectId sessionId : String) (botContexts : List Context)
    (result : QueryResult) : FinalResponse :=
  let fallbackCount := readFallbackCount projectId sessionId botContexts
  let outputContexts := backendOutputContexts result
  if dialogflowIntent result = fallbackIntentLabel then
    let previousContext := botContexts.find? (fun c => decide (0 < c.lifespanCount))
    if jge2 fallbackCount then
      { replyText := terminalReply
        intent := dialogflowIntent result
        confidence := dialogflowConfidence result
        botContexts := outputContexts
        botState := "COMPLETE" }
    else
      let reapplied :=
        match previousContext with
        | some p => outputContexts ++ [⟨p.name, 1, p.parameters⟩]
        | none => outputContexts
      { replyText := rephraseReply
        intent := dialogflowIntent result
        confidence := dialogflowConfidence result
        botContexts := reapplied ++
          [⟨fallbackContextName projectId sessionId, 1,
            [("fallback_count", jsIncr fallbackCount)]⟩]
        botState := "MOREDATA" }
  else
    { replyText := dialogflowReply result
      intent := dialogflowIntent result
      confidence := dialogflowConfidence result
      botContexts := outputContexts
      botState := "MOREDATA" }

/-- The `inputMessage` object of the inbound body; `text` may be absent. -/
structure InputMessage where
  text : Option String
deriving DecidableEq

/-- The inbound JSON body (§6). `event` stands for any initiation-event
field the payload might carry: the worker reads only `inputMessage`,
`languageCode`, `botSessionId` and `botContexts`, so such a field is never
consulted. -/
structure RequestBody where
  inputMessage : InputMessage
  languageCode : Option String
  botSessionId : String
  botContexts : Option (List Context)
  event : Option String
deriving DecidableEq

/-- The outcome of one invocation: an error response with its HTTP status,
or a 200 with the assembled final response. -/
inductive TurnOutcome where
  | failed (status : Nat) (message : String)
  | ok (status : Nat) (response : FinalResponse)
deriving DecidableEq

/-- Lines 93-268 after authentication, on the path where credentials load
and the backend call succeeds: extract the utterance, reject a falsy one
with 400 `"No user message found."` (line 106-108), otherwise post-process
the backend `result` and answer 200. `result` is a parameter standing for
the backend call's outcome: the 400 branch is taken before the token
exchange and the backend call, so the rejection cannot depend on it. -/
def turn (body : RequestBody) (projectId : String) (result : QueryResult) :
    TurnOutcome :=
  match body.inputMessage.text with
  | none => .failed 400 "No user message found."
  | some m =>
    if m = "" then .failed 400 "No user message found."
    else .ok 200 (processTurn projectId body.botSessionId
      (body.botContexts.getD []) result)

/-- The JWT claims set of lines 130-136 (field names as in the source). -/
structure JwtPayload where
  iss : String
  scope : String
  aud : String
  exp : Nat
  iat : Nat
deriving DecidableEq

/-- Line 54: the URL `getAccessToken` POSTs the signed assertion to. -/
def getAccessTokenUrl : String := "https://www.googleapis.com/oauth2/v4/token"

/-- Lines 130-136: the claims set signed on every turn; `nowMs` is
`Date.now()` in milliseconds, and `Math.floor(Date.now() / 1000)` is `Nat`
division. -/
def buildJwtPayload (clientEmail : String) (nowMs : Nat) : JwtPayload :=
  { iss := clientEmail
    scope := "https://www.googleapis.com/auth/cloud-platform"
    aud := "https://www.googleapis.com/oauth2/v4/token"
    exp := nowMs / 1000 + 3600
    iat := nowMs / 1000 }

/-- The number of contexts in a list bearing the fallback-counter name. -/
def fallbackCtxCount (projectId sessionId : String) (l : List Context) : Nat :=
  (l.filter (fun c => c.name == fallbackContextName projectId sessionId)).length

/-! Concrete fixtures used to instantiate the theorems. -/

/-- A backend result that matched the fallback intent, with an empty
outbound context list. -/
def fallbackResult : QueryResult :=
  ⟨some "backend text", some "Default Fallback Intent", some (9 / 10 : Rat), some []⟩

/-- An expired inbound fallback-counter context carrying count 2. -/
def counterCtx2 : Context :=
  ⟨fallbackContextName "p" "s", 0, [("fallback_count", JVal.num (some 2))]⟩

/-- A live (lifespan 1) inbound fallback-counter context carrying count 1. -/
def counterCtxLive : Context :=
  ⟨fallbackContextName "p" "s", 1, [("fallback_count", JVal.num (some 1))]⟩

/-- A context from a different project whose name nevertheless ends in the
fallback-counter label. -/
def foreignCounterCtx : Context :=
  ⟨"projects/OTHER/agent/sessions/s/contexts/fallback_counter", 1,
    [("fallback_count", JVal.num (some 2))]⟩

/-- An inbound fallback-counter context whose count is a non-numeric string. -/
def counterCtxAbc : Context :=
  ⟨fallbackContextName "p" "s", 0, [("fallback_count", JVal.str "abc")]⟩

/-- An inbound fallback-counter context with no parameters at all. -/
def counterCtxNoParams : Context :=
  ⟨fallbackContextName "p" "s", 0, []⟩

/-- A backend result for a matched non-fallback intent that echoes the live
fallback-counter context back in its outbound list. -/
def greetingEcho : QueryResult :=
  ⟨some "Hello there", some "Greeting", some (9 / 10 : Rat), some [counterCtxLive]⟩

/-- An inbound body whose utterance is the empty string but which carries an
initiation-event field. -/
def emptyUtteranceBody : RequestBody :=
  { inputMessage := ⟨some ""⟩, languageCode := none, botSessionId := "s",
    botContexts := some [], event := some "WELCOME" }

/-- An inbound body with no utterance at all. -/
def noUtteranceBody : RequestBody :=
  { inputMessage := ⟨none⟩, languageCode := none, botSessionId := "s",
    botContexts := none, event := none }

/-- A backend result with every optional field absent. -/
def emptyResult : QueryResult := ⟨none, none, none, none⟩

/-- A live non-counter inbound context (a slot-filling context). -/
def slotCtx : Context :=
  ⟨"projects/p/agent/sessions/s/contexts/slotfill", 2, [("city", JVal.str "Paris")]⟩

/-! ## Claims -/

/-- C1 (counterexample): on a terminal fallback turn — matched intent is the
fallback intent and the inbound count is 2 — the `botState` is `COMPLETE`,
but the produced outbound context set is empty: lines 214-216 emit no
fallback-counter context with `lifespanCount = 0` (nor any context at all),
contradicting the claim's third conjunct. -/
theorem c1_counterexample :
    (processTurn "p" "s" [counterCtx2] fallbackResult).botState = "COMPLETE" ∧
    (processTurn "p" "s" [counterCtx2] fallbackResult).botContexts = [] := by
  exact ⟨rfl, rfl⟩

/-- C1 (amended): on a terminal fallback turn the reply is the fixed
terminal "contact a human agent" text overriding the backend's text, the
`botState` is `COMPLETE`, and the backend's outbound contexts are passed
through unchanged — no fallback-counter context (with `lifespanCount = 0`
or otherwise) is added. -/
theorem c1_terminal (p s : String) (ctxs : List Context) (res : QueryResult)
    (hIntent : dialogflowIntent res = fallbackIntentLabel)
    (hCount : jge2 (readFallbackCount p s ctxs) = true) :
    processTurn p s ctxs res =
      ⟨terminalReply, fallbackIntentLabel, dialogflowConfidence res,
        backendOutputContexts res, "COMPLETE"⟩ := by
  simp [processTurn, hIntent, hCount]

/-- C1 witness: the terminal theorem applied at inbound count 2. -/
theorem c1_witness :
    processTurn "p" "s" [counterCtx2] fallbackResult =
      ⟨terminalReply, fallbackIntentLabel, dialogflowConfidence fallbackResult,
        backendOutputContexts fallbackResult, "COMPLETE"⟩ :=
  c1_terminal "p" "s" [counterCtx2] fallbackResult rfl rfl

/-- C2 (counterexample): on the first fallback turn with no inbound
contexts, the emitted fallback-counter context carries the new count as the
JavaScript number 1 under the key `fallback_count`; no context in the
outbound set carries a `count` parameter, and none carries the stringified
value `"1"` — contradicting the claim's "key `count` as a stringified
integer". -/
theorem c2_counterexample :
    (processTurn "p" "s" [] fallbackResult).botContexts =
      [⟨fallbackContextName "p" "s", 1, [("fallback_count", JVal.num (some 1))]⟩] ∧
    ((processTurn "p" "s" [] fallbackResult).botContexts.all
      (fun c => (getParam c.parameters "count").isNone &&
        (getParam c.parameters "fallback_count" != some (JVal.str "1")))) = true := by
  exact ⟨rfl, rfl⟩

/-- C2 (amended): on a non-terminal fallback turn with a numeric inbound
count below 2, the reply is the generic rephrase text overriding the
backend's, the `botState` is `MOREDATA`, and the last outbound context is a
fallback-counter context with `lifespanCount = 1` carrying the incremented
count as a number under the key `fallback_count` (not stringified, and not
under a key `count`). -/
theorem c2_increment (p s : String) (ctxs : List Context) (res : QueryResult)
    (n : Int) (hIntent : dialogflowIntent res = fallbackIntentLabel)
    (hn : toNumber (readFallbackCount p s ctxs) = some n) (hlt : n < 2) :
    (processTurn p s ctxs res).replyText = rephraseReply ∧
    (processTurn p s ctxs res).botState = "MOREDATA" ∧
    (processTurn p s ctxs res).botContexts.getLast? =
      some ⟨fallbackContextName p s, 1,
        [("fallback_count", JVal.num (some (n + 1)))]⟩ := by
  have hge : jge2 (readFallbackCount p s ctxs) = false := by
    unfold jge2
    rw [hn]
    simp only [decide_eq_false_iff_not]
    omega
  have hincr : jsIncr (readFallbackCount p s ctxs) = JVal.num (some (n + 1)) := by
    unfold jsIncr
    rw [hn]
    rfl
  cases hfind : ctxs.find? (fun c => decide (0 < c.lifespanCount)) with
  | none =>
    refine ⟨?_, ?_, ?_⟩ <;>
      simp [processTurn, hIntent, hge, hincr, hfind]
  | some q =>
    refine ⟨?_, ?_, ?_⟩ <;>
      simp [processTurn, hIntent, hge, hincr, hfind]

/-- C2 witness: the increment theorem applied to the first fallback turn
(no inbound contexts, count 0). -/
theorem c2_witness :
    (processTurn "p" "s" [] fallbackResult).replyText = rephraseReply ∧
    (processTurn "p" "s" [] fallbackResult).botState = "MOREDATA" ∧
    (processTurn "p" "s" [] fallbackResult).botContexts.getLast? =
      some ⟨fallbackContextName "p" "s", 1,
        [("fallback_count", JVal.num (some (0 + 1)))]⟩ :=
  c2_increment "p" "s" [] fallbackResult 0 rfl rfl (by decide)

/-- C3 (counterexample): on a non-fallback turn whose backend result echoes
a live fallback-counter context, the outbound set still contains that
context unchanged (lifespan 1): lines 239-242 only reset a local variable
and neither drop the counter context nor emit a `lifespanCount = 0`
replacement, contradicting the claim. -/
theorem c3_counterexample :
    (processTurn "p" "s" [counterCtxLive] greetingEcho).botContexts =
      [counterCtxLive] := by
  exact rfl

/-- C3 (amended): on a non-fallback turn the `botState` is `MOREDATA` and
the backend's reply and outbound contexts are passed through unchanged; the
counter is reset only in the sense that the local count variable is unused —
no fallback-counter context is dropped from or replaced in the outbound
set. -/
theorem c3_reset (p s : String) (ctxs : List Context) (res : QueryResult)
    (hIntent : dialogflowIntent res ≠ fallbackIntentLabel) :
    processTurn p s ctxs res =
      ⟨dialogflowReply res, dialogflowIntent res, dialogflowConfidence res,
        backendOutputContexts res, "MOREDATA"⟩ := by
  simp [processTurn, hIntent]

/-- C3 witness: the pass-through theorem applied to the echoing greeting
turn. -/
theorem c3_witness :
    processTurn "p" "s" [counterCtxLive] greetingEcho =
      ⟨dialogflowReply greetingEcho, dialogflowIntent greetingEcho,
        dialogflowConfidence greetingEcho, backendOutputContexts greetingEcho,
        "MOREDATA"⟩ :=
  c3_reset "p" "s" [counterCtxLive] greetingEcho (by decide)

/-- C4 (counterexample): with a live inbound fallback-counter context and an
empty backend context list, the outbound set contains two contexts bearing
the fallback-counter name — the re-applied previous context (lines 222-228)
and the freshly appended counter (lines 231-237) — contradicting "at most
one". -/
theorem c4_counterexample :
    fallbackCtxCount "p" "s"
      (processTurn "p" "s" [counterCtxLive] fallbackResult).botContexts = 2 := by
  exact rfl

/-- C4 (amended): no filter-then-append discipline exists. On a non-terminal
fallback turn the number of fallback-counter contexts in the outbound set is
the number already present in the backend's list, plus one when the
re-applied previous context itself bears the counter name, plus one for the
newly appended counter — so duplicates accumulate instead of being removed. -/
theorem c4_no_filter (p s : String) (ctxs : List Context) (res : QueryResult)
    (hIntent : dialogflowIntent res = fallbackIntentLabel)
    (hge : jge2 (readFallbackCount p s ctxs) = false) :
    fallbackCtxCount p s (processTurn p s ctxs res).botContexts =
      fallbackCtxCount p s (backendOutputContexts res) +
      (match ctxs.find? (fun c => decide (0 < c.lifespanCount)) with
       | some q => if q.name = fallbackContextName p s then 1 else 0
       | none => 0) + 1 := by
  simp only [processTurn, hIntent, hge, Bool.false_eq_true, if_true, if_false,
    ite_true, ite_false, if_neg, if_pos]
  cases hfind : ctxs.find? (fun c => decide (0 < c.lifespanCount)) with
  | none => simp [hfind, fallbackCtxCount, List.filter_append]
  | some q =>
    by_cases hq : q.name = fallbackContextName p s <;>
      simp [hfind, fallbackCtxCount, List.filter_append, hq]

/-- C4 witness: the no-filter theorem applied to the duplicate-creating
input (backend list empty, re-applied previous context is the counter). -/
theorem c4_witness :
    fallbackCtxCount "p" "s"
      (processTurn "p" "s" [counterCtxLive] fallbackResult).botContexts =
      0 + 1 + 1 := by
  have h := c4_no_filter "p" "s" [counterCtxLive] fallbackResult rfl rfl
  simpa using h

/-- C5 (counterexample): a context from another project whose name ends in
the fallback-counter label (suffix match holds) is not recognized: the read
count stays 0, because line 146 compares the full hierarchical name for
exact equality — contradicting "a context whose name has a different
hierarchical path prefix but the same trailing label is still matched". -/
theorem c5_counterexample :
    foreignCounterCtx.name = "projects/OTHER/agent/sessions/s" ++ "/contexts/fallback_counter" ∧
    fallbackContextName "p" "s" = "projects/p/agent/sessions/s" ++ "/contexts/fallback_counter" ∧
    foreignCounterCtx.name ≠ fallbackContextName "p" "s" ∧
    readFallbackCount "p" "s" [foreignCounterCtx] = JVal.num (some 0) := by
  refine ⟨by decide, by decide, by decide, rfl⟩

/-- C5 (amended): lookup is by exact equality of the full hierarchical name
`projects/{projectId}/agent/sessions/{sessionId}/contexts/fallback_counter`;
any inbound set in which no context bears exactly that name — regardless of
trailing labels — yields count 0. -/
theorem c5_exact_match (p s : String) (ctxs : List Context)
    (h : ∀ c ∈ ctxs, c.name ≠ fallbackContextName p s) :
    readFallbackCount p s ctxs = JVal.num (some 0) := by
  have hfind : ctxs.find? (fun c => c.name == fallbackContextName p s) = none := by
    rw [List.find?_eq_none]
    intro c hc
    simpa using h c hc
  unfold readFallbackCount
  rw [hfind]

/-- C5 witness: the exact-match theorem applied to the foreign-project
context carrying count 2. -/
theorem c5_witness :
    readFallbackCount "p" "s" [foreignCounterCtx] = JVal.num (some 0) :=
  c5_exact_match "p" "s" [foreignCounterCtx] (by decide)

/-- C6 (counterexample): an inbound count `"abc"` is not validated: it is
carried into the JavaScript comparison as NaN (below threshold) and the
incremented value emitted in the outbound counter is NaN (`JVal.num none`) —
a non-numeric counter in the output, contradicting "a malformed count value
... never produces a non-numeric counter in the output". -/
theorem c6_counterexample :
    (processTurn "p" "s" [counterCtxAbc] fallbackResult).botContexts =
      [⟨fallbackContextName "p" "s", 1, [("fallback_count", JVal.num none)]⟩] := by
  exact rfl

/-- C6 (amended): the count defaults to 0 when the `fallback_count`
parameter is absent, and also when it is present but falsy; no parse
validation is performed, so a non-numeric string is carried through as NaN
rather than rejected (no error ever propagates — the ledger is total). -/
theorem c6_default (p s : String) (ctxs : List Context) (c : Context)
    (hfind : ctxs.find? (fun c => c.name == fallbackContextName p s) = some c) :
    (getParam c.parameters "fallback_count" = none →
      readFallbackCount p s ctxs = JVal.num (some 0)) ∧
    (∀ v, getParam c.parameters "fallback_count" = some v → truthy v = false →
      readFallbackCount p s ctxs = JVal.num (some 0)) := by
  constructor
  · intro habs
    simp [readFallbackCount, hfind, habs]
  · intro v hv hfalsy
    simp [readFallbackCount, hfind, hv, hfalsy]

/-- C6 witness: the defaulting theorem applied to a counter context with no
parameters. -/
theorem c6_witness :
    readFallbackCount "p" "s" [counterCtxNoParams] = JVal.num (some 0) :=
  (c6_default "p" "s" [counterCtxNoParams] counterCtxNoParams rfl).1 rfl

/-- C7 (counterexample): an inbound body whose utterance is empty but which
carries an initiation-event field is still rejected with 400 — lines
106-108 have no initiation-event exception, contradicting the claim's
"except when an explicit non-text initiation event is present ... the turn
proceeds". -/
theorem c7_counterexample :
    turn emptyUtteranceBody "p" fallbackResult =
      TurnOutcome.failed 400 "No user message found." := by
  exact rfl

/-- C7 (amended): a missing or empty utterance is always rejected with 400
`"No user message found."`, for every backend result (the rejection is
independent of — hence prior to — the token exchange and backend call);
there is no initiation-event exception. -/
theorem c7_reject (body : RequestBody) (p : String) (res : QueryResult)
    (h : body.inputMessage.text.getD "" = "") :
    turn body p res = TurnOutcome.failed 400 "No user message found." := by
  unfold turn
  cases htext : body.inputMessage.text with
  | none => rfl
  | some m =>
    rw [htext] at h
    simp only [Option.getD_some] at h
    simp [h]

/-- C7 witness: the rejection theorem applied to the body with no utterance
field. -/
theorem c7_witness :
    turn noUtteranceBody "p" fallbackResult =
      TurnOutcome.failed 400 "No user message found." :=
  c7_reject noUtteranceBody "p" fallbackResult rfl

/-- C8: each field of the extracted backend result defaults independently
when absent — fulfillment text to the fixed fallback string, intent display
name to `"UNKNOWN"`, detection confidence to 0, and the outbound context
list to the empty list (lines 200-203). -/
theorem c8_defaults (res : QueryResult) :
    (res.fulfillmentText = none → dialogflowReply res = noResponseReply) ∧
    (res.intent = none → dialogflowIntent res = "UNKNOWN") ∧
    (res.intentDetectionConfidence = none → dialogflowConfidence res = 0) ∧
    (res.outputContexts = none → backendOutputContexts res = []) := by
  refine ⟨fun h => ?_, fun h => ?_, fun h => ?_, fun h => ?_⟩ <;>
    simp [dialogflowReply, jsOrStr, dialogflowIntent, dialogflowConfidence,
      backendOutputContexts, h]

/-- C8 witness: the defaulting theorem applied to the backend result with
every field absent. -/
theorem c8_witness :
    dialogflowReply emptyResult = noResponseReply ∧
    dialogflowIntent emptyResult = "UNKNOWN" ∧
    dialogflowConfidence emptyResult = 0 ∧
    backendOutputContexts emptyResult = [] :=
  ⟨(c8_defaults emptyResult).1 rfl, (c8_defaults emptyResult).2.1 rfl,
    (c8_defaults emptyResult).2.2.1 rfl, (c8_defaults emptyResult).2.2.2 rfl⟩

/-- C9: for every credential issuer identity and request time, the signed
assertion's claims set has issuer = the credential's client email, audience
= the fixed token-exchange endpoint (the same URL `getAccessToken` POSTs
to), scope = the fixed cloud-platform scope, issued-at = now (in seconds),
and expiry = issued-at + 3600 seconds. The payload is built inside each
invocation from the current time, so a fresh assertion is minted per turn —
nothing in the worker caches it. -/
theorem c9_jwt_claims (clientEmail : String) (nowMs : Nat) :
    (buildJwtPayload clientEmail nowMs).iss = clientEmail ∧
    (buildJwtPayload clientEmail nowMs).aud = getAccessTokenUrl ∧
    (buildJwtPayload clientEmail nowMs).scope =
      "https://www.googleapis.com/auth/cloud-platform" ∧
    (buildJwtPayload clientEmail nowMs).iat = nowMs / 1000 ∧
    (buildJwtPayload clientEmail nowMs).exp =
      (buildJwtPayload clientEmail nowMs).iat + 3600 :=
  ⟨rfl, rfl, rfl, rfl, rfl⟩

/-- C10: on a non-terminal fallback turn, when some inbound context has a
positive lifespan, the first such context is re-applied — appended to the
backend's outbound list with its lifespan reset to 1 and its parameters
preserved — just before the new fallback-counter context (lines 212 and
222-228). -/
theorem c10_reapply (p s : String) (ctxs : List Context) (res : QueryResult)
    (q : Context) (hIntent : dialogflowIntent res = fallbackIntentLabel)
    (hge : jge2 (readFallbackCount p s ctxs) = false)
    (hfind : ctxs.find? (fun c => decide (0 < c.lifespanCount)) = some q) :
    (processTurn p s ctxs res).botContexts =
      (backendOutputContexts res ++ [⟨q.name, 1, q.parameters⟩]) ++
        [⟨fallbackContextName p s, 1,
          [("fallback_count", jsIncr (readFallbackCount p s ctxs))]⟩] := by
  simp [processTurn, hIntent, hge, hfind]

/-- C10 witness: the re-application theorem applied to an inbound list whose
only live context is a slot-filling context. -/
theorem c10_witness :
    (processTurn "p" "s" [slotCtx] fallbackResult).botContexts =
      (backendOutputContexts fallbackResult ++ [⟨slotCtx.name, 1, slotCtx.parameters⟩]) ++
        [⟨fallbackContextName "p" "s", 1,
          [("fallback_count", jsIncr (readFallbackCount "p" "s" [slotCtx]))]⟩] :=
  c10_reapply "p" "s" [slotCtx] fallbackResult slotCtx rfl rfl rfl

end GenConnector
